import Mathlib

/-!
Shallow embedding of the TCA6424 I2C I/O-expander driver (tca6424-rs).

The driver's bus interaction is modelled by an explicit transaction log:
every operation takes a bus oracle (deciding the transport's response to
each transaction, possibly from the history so far), the device address and
the log of transactions already issued, and returns its result together
with the extended log.  Machine bytes are `Nat` values; all bit operations
of the source stay within 8 bits, so no extra reduction mod 256 is needed
where the source does none.
-/

/-- Register addresses of the TCA6424, from `src/registers.rs` (`Register`). -/
inductive Register where
  | InputPort0
  | InputPort1
  | InputPort2
  | OutputPort0
  | OutputPort1
  | OutputPort2
  | PolarityInversionPort0
  | PolarityInversionPort1
  | PolarityInversionPort2
  | ConfigurationPort0
  | ConfigurationPort1
  | ConfigurationPort2
  | InterruptMaskPort0
  | InterruptMaskPort1
  | InterruptMaskPort2
deriving DecidableEq, Repr

/-- The `repr(u8)` discriminant of each register (`Register` enum values). -/
def Register.addr : Register → Nat
  | .InputPort0 => 0x00
  | .InputPort1 => 0x01
  | .InputPort2 => 0x02
  | .OutputPort0 => 0x04
  | .OutputPort1 => 0x05
  | .OutputPort2 => 0x06
  | .PolarityInversionPort0 => 0x08
  | .PolarityInversionPort1 => 0x09
  | .PolarityInversionPort2 => 0x0A
  | .ConfigurationPort0 => 0x0C
  | .ConfigurationPort1 => 0x0D
  | .ConfigurationPort2 => 0x0E
  | .InterruptMaskPort0 => 0x10
  | .InterruptMaskPort1 => 0x11
  | .InterruptMaskPort2 => 0x12

/-- Pins P00..P27, from `src/data_types.rs` (`Pin`). -/
inductive Pin where
  | P00 | P01 | P02 | P03 | P04 | P05 | P06 | P07
  | P10 | P11 | P12 | P13 | P14 | P15 | P16 | P17
  | P20 | P21 | P22 | P23 | P24 | P25 | P26 | P27
deriving DecidableEq, Repr

/-- The `repr(u8)` discriminant of a pin (`pin as u8` in the source). -/
def Pin.toU8 : Pin → Nat
  | .P00 => 0 | .P01 => 1 | .P02 => 2 | .P03 => 3
  | .P04 => 4 | .P05 => 5 | .P06 => 6 | .P07 => 7
  | .P10 => 8 | .P11 => 9 | .P12 => 10 | .P13 => 11
  | .P14 => 12 | .P15 => 13 | .P16 => 14 | .P17 => 15
  | .P20 => 16 | .P21 => 17 | .P22 => 18 | .P23 => 19
  | .P24 => 20 | .P25 => 21 | .P26 => 22 | .P27 => 23

/-- Pin direction, from `src/data_types.rs` (`PinDirection`). -/
inductive PinDirection where
  | Input
  | Output
deriving DecidableEq, Repr

/-- Pin state, from `src/data_types.rs` (`PinState`). -/
inductive PinState where
  | Low
  | High
deriving DecidableEq, Repr

/-- Ports, from `src/data_types.rs` (`Port`). -/
inductive Port where
  | Port0
  | Port1
  | Port2
deriving DecidableEq, Repr

/-- Driver errors, from `src/errors.rs` (`Error<I2cError>`). -/
inductive Error (E : Type) where
  | I2c (e : E)
  | InvalidRegisterOrPin
deriving DecidableEq, Repr

/-- One I2C bus transaction as issued by the driver: a plain write of a byte
frame, or a combined write-then-read of `readLen` bytes. -/
inductive Txn where
  | write (address : Nat) (bytes : List Nat)
  | writeRead (address : Nat) (out : List Nat) (readLen : Nat)
deriving DecidableEq, Repr

/-- Transport response to one transaction: acknowledged (with read data,
empty for plain writes) or a transport error. -/
inductive Resp (E : Type) where
  | ok (data : List Nat)
  | err (e : E)
deriving DecidableEq, Repr

/-- A bus oracle decides the transport's response to each transaction,
possibly depending on the history of transactions issued before it. -/
abbrev Oracle (E : Type) := List Txn → Txn → Resp E

/-- Filling a caller buffer with read data: byte `i` of the result is
`data[i]` when the transport produced it, else the old buffer byte. -/
def fillBuffer (buffer data : List Nat) : List Nat :=
  data.take buffer.length ++ buffer.drop data.length

/-- `embedded-hal` `I2c::write`: issue one write transaction. -/
def i2cWrite {E : Type} (oracle : Oracle E) (log : List Txn)
    (address : Nat) (bytes : List Nat) : Except E Unit × List Txn :=
  let t := Txn.write address bytes
  (match oracle log t with
   | Resp.ok _ => Except.ok ()
   | Resp.err e => Except.error e,
   log ++ [t])

/-- `embedded-hal` `I2c::write_read`: one combined write-then-read
transaction; returns the filled buffer. -/
def i2cWriteRead {E : Type} (oracle : Oracle E) (log : List Txn)
    (address : Nat) (out : List Nat) (buffer : List Nat) :
    Except E (List Nat) × List Txn :=
  let t := Txn.writeRead address out buffer.length
  (match oracle log t with
   | Resp.ok data => Except.ok (fillBuffer buffer data)
   | Resp.err e => Except.error e,
   log ++ [t])

/-- `Tca6424::write_register` (lib.rs 175-184): frame `[register, value]`,
auto-increment bit clear. -/
def write_register {E : Type} (oracle : Oracle E) (address : Nat)
    (log : List Txn) (register : Register) (value : Nat) :
    Except (Error E) Unit × List Txn :=
  let command_byte := register.addr
  let buffer := [command_byte, value]
  match i2cWrite oracle log address buffer with
  | (Except.ok _, log') => (Except.ok (), log')
  | (Except.error e, log') => (Except.error (Error.I2c e), log')

/-- `Tca6424::read_register` (lib.rs 200-212): write `[register]` then read
one byte via repeated start. -/
def read_register {E : Type} (oracle : Oracle E) (address : Nat)
    (log : List Txn) (register : Register) :
    Except (Error E) Nat × List Txn :=
  let command_byte := register.addr
  match i2cWriteRead oracle log address [command_byte] [0] with
  | (Except.ok read_buffer, log') => (Except.ok (read_buffer.headD 0), log')
  | (Except.error e, log') => (Except.error (Error.I2c e), log')

/-- `Tca6424::write_registers_ai` (lib.rs 231-246): frame
`[start_register | 0x80, values[..min(len, 3)]]` in a single write. -/
def write_registers_ai {E : Type} (oracle : Oracle E) (address : Nat)
    (log : List Txn) (start_register : Register) (values : List Nat) :
    Except (Error E) Unit × List Txn :=
  let command_byte := start_register.addr ||| 0x80
  let len := min values.length 3
  let buffer := command_byte :: values.take len
  match i2cWrite oracle log address buffer with
  | (Except.ok _, log') => (Except.ok (), log')
  | (Except.error e, log') => (Except.error (Error.I2c e), log')

/-- `Tca6424::read_registers_ai` (lib.rs 265-276): write
`[start_register | 0x80]` then read `buffer.length` bytes via repeated
start; returns the filled buffer. -/
def read_registers_ai {E : Type} (oracle : Oracle E) (address : Nat)
    (log : List Txn) (start_register : Register) (buffer : List Nat) :
    Except (Error E) (List Nat) × List Txn :=
  let command_byte := start_register.addr ||| 0x80
  match i2cWriteRead oracle log address [command_byte] buffer with
  | (Except.ok filled, log') => (Except.ok filled, log')
  | (Except.error e, log') => (Except.error (Error.I2c e), log')

/-- `Tca6424::new` (lib.rs 156-158): stores the bus handle and address and
returns `Ok`; no bus transaction is issued, so the log part is `[]`. -/
def Tca6424.new {E : Type} (address : Nat) :
    Except (Error E) Nat × List Txn :=
  (Except.ok address, [])

/-- The `match port_index` arm shared by the configuration-register
operations (lib.rs 302-307 and 339-344); `none` is the fallthrough arm
that returns `Error::InvalidRegisterOrPin`. -/
def configRegisterFor (port_index : Nat) : Option Register :=
  match port_index with
  | 0 => some Register.ConfigurationPort0
  | 1 => some Register.ConfigurationPort1
  | 2 => some Register.ConfigurationPort2
  | _ => none

/-- The `match port_index` arm of `set_pin_output` (lib.rs 379-384). -/
def outputRegisterFor (port_index : Nat) : Option Register :=
  match port_index with
  | 0 => some Register.OutputPort0
  | 1 => some Register.OutputPort1
  | 2 => some Register.OutputPort2
  | _ => none

/-- The `match port_index` arm of `get_pin_input_state` (lib.rs 455-460). -/
def inputRegisterFor (port_index : Nat) : Option Register :=
  match port_index with
  | 0 => some Register.InputPort0
  | 1 => some Register.InputPort1
  | 2 => some Register.InputPort2
  | _ => none

/-- The `match port_index` arm of `set_pin_polarity_inversion`
(lib.rs 496-501). -/
def polarityRegisterFor (port_index : Nat) : Option Register :=
  match port_index with
  | 0 => some Register.PolarityInversionPort0
  | 1 => some Register.PolarityInversionPort1
  | 2 => some Register.PolarityInversionPort2
  | _ => none

/-- The `match port_index` arm of `set_pin_interrupt_mask`
(lib.rs 999-1004). -/
def interruptMaskRegisterFor (port_index : Nat) : Option Register :=
  match port_index with
  | 0 => some Register.InterruptMaskPort0
  | 1 => some Register.InterruptMaskPort1
  | 2 => some Register.InterruptMaskPort2
  | _ => none

/-- `Tca6424::set_pin_direction` (lib.rs 294-318): read-modify-write of the
pin's Configuration register; Input sets the bit, Output clears it. -/
def set_pin_direction {E : Type} (oracle : Oracle E) (address : Nat)
    (log : List Txn) (pin : Pin) (direction : PinDirection) :
    Except (Error E) Unit × List Txn :=
  let pin_index := pin.toU8
  let port_index := pin_index / 8
  let bit_index := pin_index % 8
  match configRegisterFor port_index with
  | none => (Except.error Error.InvalidRegisterOrPin, log)
  | some config_register =>
    match read_register oracle address log config_register with
    | (Except.error e, log') => (Except.error e, log')
    | (Except.ok config_value, log') =>
      let config_value :=
        match direction with
        | PinDirection.Input => config_value ||| (1 <<< bit_index)
        | PinDirection.Output => config_value &&& ((1 <<< bit_index) ^^^ 0xFF)
      write_register oracle address log' config_register config_value

/-- `Tca6424::get_pin_direction` (lib.rs 335-351): read the pin's
Configuration register and extract its bit; 1 is Input, 0 is Output. -/
def get_pin_direction {E : Type} (oracle : Oracle E) (address : Nat)
    (log : List Txn) (pin : Pin) :
    Except (Error E) PinDirection × List Txn :=
  let pin_index := pin.toU8
  let port_index := pin_index / 8
  let bit_index := pin_index % 8
  match configRegisterFor port_index with
  | none => (Except.error Error.InvalidRegisterOrPin, log)
  | some config_register =>
    match read_register oracle address log config_register with
    | (Except.error e, log') => (Except.error e, log')
    | (Except.ok config_value, log') =>
      if (config_value >>> bit_index) &&& 1 == 1 then
        (Except.ok PinDirection.Input, log')
      else
        (Except.ok PinDirection.Output, log')

/-- `Tca6424::set_pin_output` (lib.rs 371-395): read-modify-write of the
pin's Output register; High sets the bit, Low clears it. -/
def set_pin_output {E : Type} (oracle : Oracle E) (address : Nat)
    (log : List Txn) (pin : Pin) (state : PinState) :
    Except (Error E) Unit × List Txn :=
  let pin_index := pin.toU8
  let port_index := pin_index / 8
  let bit_index := pin_index % 8
  match outputRegisterFor port_index with
  | none => (Except.error Error.InvalidRegisterOrPin, log)
  | some output_register =>
    match read_register oracle address log output_register with
    | (Except.error e, log') => (Except.error e, log')
    | (Except.ok output_value, log') =>
      let output_value :=
        match state with
        | PinState.High => output_value ||| (1 <<< bit_index)
        | PinState.Low => output_value &&& ((1 <<< bit_index) ^^^ 0xFF)
      write_register oracle address log' output_register output_value

/-- `Tca6424::set_pin_polarity_inversion` (lib.rs 488-509): read-modify-write
of the pin's Polarity Inversion register. -/
def set_pin_polarity_inversion {E : Type} (oracle : Oracle E) (address : Nat)
    (log : List Txn) (pin : Pin) (invert : Bool) :
    Except (Error E) Unit × List Txn :=
  let pin_index := pin.toU8
  let port_index := pin_index / 8
  let bit_index := pin_index % 8
  match polarityRegisterFor port_index with
  | none => (Except.error Error.InvalidRegisterOrPin, log)
  | some polarity_register =>
    match read_register oracle address log polarity_register with
    | (Except.error e, log') => (Except.error e, log')
    | (Except.ok polarity_value, log') =>
      let polarity_value :=
        if invert then polarity_value ||| (1 <<< bit_index)
        else polarity_value &&& ((1 <<< bit_index) ^^^ 0xFF)
      write_register oracle address log' polarity_register polarity_value

/-- `Tca6424::set_pin_interrupt_mask` (lib.rs 991-1012): read-modify-write
of the pin's Interrupt Mask register. -/
def set_pin_interrupt_mask {E : Type} (oracle : Oracle E) (address : Nat)
    (log : List Txn) (pin : Pin) (mask : Bool) :
    Except (Error E) Unit × List Txn :=
  let pin_index := pin.toU8
  let port_index := pin_index / 8
  let bit_index := pin_index % 8
  match interruptMaskRegisterFor port_index with
  | none => (Except.error Error.InvalidRegisterOrPin, log)
  | some mask_register =>
    match read_register oracle address log mask_register with
    | (Except.error e, log') => (Except.error e, log')
    | (Except.ok mask_value, log') =>
      let mask_value :=
        if mask then mask_value ||| (1 <<< bit_index)
        else mask_value &&& ((1 <<< bit_index) ^^^ 0xFF)
      write_register oracle address log' mask_register mask_value

/-- `Tca6424::get_pin_output_state` (lib.rs 415-431): read the pin's Output
register and extract its bit; 1 is High, 0 is Low. -/
def get_pin_output_state {E : Type} (oracle : Oracle E) (address : Nat)
    (log : List Txn) (pin : Pin) :
    Except (Error E) PinState × List Txn :=
  let pin_index := pin.toU8
  let port_index := pin_index / 8
  let bit_index := pin_index % 8
  match outputRegisterFor port_index with
  | none => (Except.error Error.InvalidRegisterOrPin, log)
  | some output_register =>
    match read_register oracle address log output_register with
    | (Except.error e, log') => (Except.error e, log')
    | (Except.ok output_value, log') =>
      if (output_value >>> bit_index) &&& 1 == 1 then
        (Except.ok PinState.High, log')
      else
        (Except.ok PinState.Low, log')

/-- `Tca6424::get_pin_input_state` (lib.rs 451-467): read the pin's Input
register and extract its bit; 1 is High, 0 is Low. -/
def get_pin_input_state {E : Type} (oracle : Oracle E) (address : Nat)
    (log : List Txn) (pin : Pin) :
    Except (Error E) PinState × List Txn :=
  let pin_index := pin.toU8
  let port_index := pin_index / 8
  let bit_index := pin_index % 8
  match inputRegisterFor port_index with
  | none => (Except.error Error.InvalidRegisterOrPin, log)
  | some input_register =>
    match read_register oracle address log input_register with
    | (Except.error e, log') => (Except.error e, log')
    | (Except.ok input_value, log') =>
      if (input_value >>> bit_index) &&& 1 == 1 then
        (Except.ok PinState.High, log')
      else
        (Except.ok PinState.Low, log')

/-- `Tca6424::get_pin_polarity_inversion` (lib.rs 526-541): read the pin's
Polarity Inversion register and extract its bit as a Bool. -/
def get_pin_polarity_inversion {E : Type} (oracle : Oracle E) (address : Nat)
    (log : List Txn) (pin : Pin) :
    Except (Error E) Bool × List Txn :=
  let pin_index := pin.toU8
  let port_index := pin_index / 8
  let bit_index := pin_index % 8
  match polarityRegisterFor port_index with
  | none => (Except.error Error.InvalidRegisterOrPin, log)
  | some polarity_register =>
    match read_register oracle address log polarity_register with
    | (Except.error e, log') => (Except.error e, log')
    | (Except.ok polarity_value, log') =>
      (Except.ok (((polarity_value >>> bit_index) &&& 1) == 1), log')

/-- `Tca6424::get_pin_interrupt_mask` (lib.rs 1029-1041): read the pin's
Interrupt Mask register and extract its bit as a Bool. -/
def get_pin_interrupt_mask {E : Type} (oracle : Oracle E) (address : Nat)
    (log : List Txn) (pin : Pin) :
    Except (Error E) Bool × List Txn :=
  let pin_index := pin.toU8
  let port_index := pin_index / 8
  let bit_index := pin_index % 8
  match interruptMaskRegisterFor port_index with
  | none => (Except.error Error.InvalidRegisterOrPin, log)
  | some mask_register =>
    match read_register oracle address log mask_register with
    | (Except.error e, log') => (Except.error e, log')
    | (Except.ok mask_value, log') =>
      (Except.ok (((mask_value >>> bit_index) &&& 1) == 1), log')

/-- `Tca6424::set_ports_direction_ai` (lib.rs 761-773): batch write of the
Configuration registers starting at `start_port`. -/
def set_ports_direction_ai {E : Type} (oracle : Oracle E) (address : Nat)
    (log : List Txn) (start_port : Port) (direction_masks : List Nat) :
    Except (Error E) Unit × List Txn :=
  let start_register :=
    match start_port with
    | Port.Port0 => Register.ConfigurationPort0
    | Port.Port1 => Register.ConfigurationPort1
    | Port.Port2 => Register.ConfigurationPort2
  write_registers_ai oracle address log start_register direction_masks

/-- `Tca6424::get_ports_input_state_ai` (lib.rs 894-905): batch read of the
Input registers starting at `start_port`. -/
def get_ports_input_state_ai {E : Type} (oracle : Oracle E) (address : Nat)
    (log : List Txn) (start_port : Port) (buffer : List Nat) :
    Except (Error E) (List Nat) × List Txn :=
  let start_register :=
    match start_port with
    | Port.Port0 => Register.InputPort0
    | Port.Port1 => Register.InputPort1
    | Port.Port2 => Register.InputPort2
  read_registers_ai oracle address log start_register buffer

/-- `Tca6424::set_initial_output_state` (lib.rs 1175-1184): batch write of
`[port0_mask, port1_mask, port2_mask]` starting at Output Port 0. -/
def set_initial_output_state {E : Type} (oracle : Oracle E) (address : Nat)
    (log : List Txn) (port0_mask port1_mask port2_mask : Nat) :
    Except (Error E) Unit × List Txn :=
  let masks := [port0_mask, port1_mask, port2_mask]
  write_registers_ai oracle address log Register.OutputPort0 masks

/-- The Configuration register of a pin's port (statement-side shorthand for
the driver's `match port_index` lookup; the default is never reached since
`pin.toU8 / 8 < 3`). -/
def configRegisterOf (pin : Pin) : Register :=
  (configRegisterFor (pin.toU8 / 8)).getD Register.ConfigurationPort0

/-- The Output register of a pin's port (statement-side shorthand). -/
def outputRegisterOf (pin : Pin) : Register :=
  (outputRegisterFor (pin.toU8 / 8)).getD Register.OutputPort0

/-- The Polarity Inversion register of a pin's port (statement-side
shorthand). -/
def polarityRegisterOf (pin : Pin) : Register :=
  (polarityRegisterFor (pin.toU8 / 8)).getD Register.PolarityInversionPort0

/-- The Interrupt Mask register of a pin's port (statement-side
shorthand). -/
def interruptMaskRegisterOf (pin : Pin) : Register :=
  (interruptMaskRegisterFor (pin.toU8 / 8)).getD Register.InterruptMaskPort0

/-! ### A device model used as the bus double

The TCA6424 holds one byte per register address and answers reads with the
byte last written (the spec's "the device holds the byte last written").
The model replays the transaction log through the device's wire protocol:
a write frame `[cmd, v0, ..]` stores the payload at consecutive addresses
starting at `cmd mod 128` (the address bits of the command byte), and a
write-then-read with command byte `cmd` returns the bytes at `cmd mod 128`
onward (with the auto-increment bit) or that single register repeated
(without it). -/

/-- Store `vals` at consecutive register addresses starting at `base`. -/
def writeSeq (regs : Nat → Nat) (base : Nat) (vals : List Nat) : Nat → Nat :=
  match vals with
  | [] => regs
  | v :: rest => writeSeq (fun a => if a = base then v else regs a) (base + 1) rest

/-- Apply one transaction's effect to the device registers. -/
def devApply (regs : Nat → Nat) (t : Txn) : Nat → Nat :=
  match t with
  | Txn.write _ [] => regs
  | Txn.write _ (cmd :: vals) => writeSeq regs (cmd % 128) vals
  | Txn.writeRead _ _ _ => regs

/-- Replay a transaction log through the device. -/
def devReplay (regs : Nat → Nat) (log : List Txn) : Nat → Nat :=
  match log with
  | [] => regs
  | t :: rest => devReplay (devApply regs t) rest

/-- The bytes returned for a read with command byte `cmd` of `n` bytes. -/
def devRead (regs : Nat → Nat) (cmd n : Nat) : List Nat :=
  if cmd < 128 then List.replicate n (regs cmd)
  else (List.range n).map (fun i => regs (cmd % 128 + i))

/-- Bus double backed by the device model with initial registers `regs`. -/
def deviceOracle {E : Type} (regs : Nat → Nat) : Oracle E :=
  fun log t =>
    let cur := devReplay regs log
    match t with
    | Txn.write _ _ => Resp.ok []
    | Txn.writeRead _ out n =>
      match out with
      | [cmd] => Resp.ok (devRead cur cmd n)
      | _ => Resp.ok []

deriving instance DecidableEq for Except

/-- The transaction log of `set_pin_direction` run against a scripted double
whose register read returns the byte `v` (statement-side shorthand). -/
def spdLog (pin : Pin) (direction : PinDirection) (v : Nat) : List Txn :=
  (set_pin_direction (E := Nat) (fun _ _ => Resp.ok [v]) 0x22 []
    pin direction).2

/-- The value byte of the write frame in a read-then-write log
(statement-side extractor). -/
def writtenValue (log : List Txn) : Nat :=
  match log with
  | [_, Txn.write _ [_, w]] => w
  | _ => 0

/-- The Input register selected by `get_ports_input_state_ai` for a start
port (the `match start_port` of lib.rs 899-903). -/
def inputRegisterOfPort (start_port : Port) : Register :=
  match start_port with
  | Port.Port0 => Register.InputPort0
  | Port.Port1 => Register.InputPort1
  | Port.Port2 => Register.InputPort2

lemma take_min_length {α : Type} (l : List α) (n : Nat) :
    l.take (min l.length n) = l.take n := by
  rcases le_total l.length n with h | h
  · rw [min_eq_left h, List.take_length, List.take_of_length_le h]
  · rw [min_eq_right h]

lemma spdLog_eq (pin : Pin) (direction : PinDirection) (v : Nat) :
    spdLog pin direction v =
      [Txn.writeRead 0x22 [(configRegisterOf pin).addr] 1,
       Txn.write 0x22 [(configRegisterOf pin).addr,
         match direction with
         | PinDirection.Input => v ||| (1 <<< (pin.toU8 % 8))
         | PinDirection.Output => v &&& ((1 <<< (pin.toU8 % 8)) ^^^ 0xFF)]] := by
  cases pin <;> cases direction <;> rfl

lemma testBit_shiftLeft_one_self (b : Nat) : (1 <<< b).testBit b = true := by
  rw [Nat.one_shiftLeft]; exact Nat.testBit_two_pow_self

lemma testBit_shiftLeft_one_ne (b j : Nat) (h : b ≠ j) :
    (1 <<< b).testBit j = false := by
  rw [Nat.one_shiftLeft]; exact Nat.testBit_two_pow_of_ne h

lemma testBit_255_of_lt (j : Nat) (h : j < 8) : Nat.testBit 255 j = true := by
  interval_cases j <;> rfl

lemma read_register_shape {E : Type} (oracle : Oracle E) (address : Nat)
    (log : List Txn) (reg : Register) :
    (∃ v log', read_register oracle address log reg = (Except.ok v, log')) ∨
    (∃ e0 log', read_register oracle address log reg =
      (Except.error (Error.I2c e0), log')) := by
  cases h : oracle log (Txn.writeRead address [reg.addr] 1) with
  | ok data =>
    exact Or.inl ⟨(fillBuffer [0] data).headD 0,
      log ++ [Txn.writeRead address [reg.addr] 1],
      by simp [read_register, i2cWriteRead, h]⟩
  | err e0 =>
    exact Or.inr ⟨e0, log ++ [Txn.writeRead address [reg.addr] 1],
      by simp [read_register, i2cWriteRead, h]⟩

lemma write_register_fst_ne_invalid {E : Type} (oracle : Oracle E)
    (address : Nat) (log : List Txn) (reg : Register) (value : Nat) :
    (write_register oracle address log reg value).1 ≠
      Except.error Error.InvalidRegisterOrPin := by
  unfold write_register i2cWrite
  cases h : oracle log (Txn.write address [reg.addr, value]) <;> simp [h]

lemma set_pin_direction_ne_invalid {E : Type} (oracle : Oracle E)
    (address : Nat) (log : List Txn) (pin : Pin)
    (direction : PinDirection) :
    (set_pin_direction oracle address log pin direction).1 ≠
      Except.error Error.InvalidRegisterOrPin := by
  obtain ⟨reg, hreg⟩ : ∃ reg, configRegisterFor (pin.toU8 / 8) = some reg := by
    cases pin <;> exact ⟨_, rfl⟩
  simp only [set_pin_direction, hreg]
  rcases read_register_shape oracle address log reg with
    ⟨v, log', hv⟩ | ⟨e0, log', he⟩
  · rw [hv]
    exact write_register_fst_ne_invalid oracle address log' reg _
  · rw [he]
    simp

lemma get_pin_direction_ne_invalid {E : Type} (oracle : Oracle E)
    (address : Nat) (log : List Txn) (pin : Pin) :
    (get_pin_direction oracle address log pin).1 ≠
      Except.error Error.InvalidRegisterOrPin := by
  obtain ⟨reg, hreg⟩ : ∃ reg, configRegisterFor (pin.toU8 / 8) = some reg := by
    cases pin <;> exact ⟨_, rfl⟩
  simp only [get_pin_direction, hreg]
  rcases read_register_shape oracle address log reg with
    ⟨v, log', hv⟩ | ⟨e0, log', he⟩
  · rw [hv]
    split
    · simp_all
    · split <;> simp
  · rw [he]
    simp

lemma set_pin_output_ne_invalid {E : Type} (oracle : Oracle E)
    (address : Nat) (log : List Txn) (pin : Pin) (state : PinState) :
    (set_pin_output oracle address log pin state).1 ≠
      Except.error Error.InvalidRegisterOrPin := by
  obtain ⟨reg, hreg⟩ : ∃ reg, outputRegisterFor (pin.toU8 / 8) = some reg := by
    cases pin <;> exact ⟨_, rfl⟩
  simp only [set_pin_output, hreg]
  rcases read_register_shape oracle address log reg with
    ⟨v, log', hv⟩ | ⟨e0, log', he⟩
  · rw [hv]
    exact write_register_fst_ne_invalid oracle address log' reg _
  · rw [he]
    simp

lemma set_pin_polarity_inversion_ne_invalid {E : Type} (oracle : Oracle E)
    (address : Nat) (log : List Txn) (pin : Pin) (invert : Bool) :
    (set_pin_polarity_inversion oracle address log pin invert).1 ≠
      Except.error Error.InvalidRegisterOrPin := by
  obtain ⟨reg, hreg⟩ : ∃ reg, polarityRegisterFor (pin.toU8 / 8) = some reg := by
    cases pin <;> exact ⟨_, rfl⟩
  simp only [set_pin_polarity_inversion, hreg]
  rcases read_register_shape oracle address log reg with
    ⟨v, log', hv⟩ | ⟨e0, log', he⟩
  · rw [hv]
    exact write_register_fst_ne_invalid oracle address log' reg _
  · rw [he]
    simp

lemma set_pin_interrupt_mask_ne_invalid {E : Type} (oracle : Oracle E)
    (address : Nat) (log : List Txn) (pin : Pin) (mask : Bool) :
    (set_pin_interrupt_mask oracle address log pin mask).1 ≠
      Except.error Error.InvalidRegisterOrPin := by
  obtain ⟨reg, hreg⟩ : ∃ reg,
      interruptMaskRegisterFor (pin.toU8 / 8) = some reg := by
    cases pin <;> exact ⟨_, rfl⟩
  simp only [set_pin_interrupt_mask, hreg]
  rcases read_register_shape oracle address log reg with
    ⟨v, log', hv⟩ | ⟨e0, log', he⟩
  · rw [hv]
    exact write_register_fst_ne_invalid oracle address log' reg _
  · rw [he]
    simp

lemma get_pin_output_state_ne_invalid {E : Type} (oracle : Oracle E)
    (address : Nat) (log : List Txn) (pin : Pin) :
    (get_pin_output_state oracle address log pin).1 ≠
      Except.error Error.InvalidRegisterOrPin := by
  obtain ⟨reg, hreg⟩ : ∃ reg, outputRegisterFor (pin.toU8 / 8) = some reg := by
    cases pin <;> exact ⟨_, rfl⟩
  simp only [get_pin_output_state, hreg]
  rcases read_register_shape oracle address log reg with
    ⟨v, log', hv⟩ | ⟨e0, log', he⟩
  · rw [hv]
    split
    · simp_all
    · split <;> simp
  · rw [he]
    simp

lemma get_pin_input_state_ne_invalid {E : Type} (oracle : Oracle E)
    (address : Nat) (log : List Txn) (pin : Pin) :
    (get_pin_input_state oracle address log pin).1 ≠
      Except.error Error.InvalidRegisterOrPin := by
  obtain ⟨reg, hreg⟩ : ∃ reg, inputRegisterFor (pin.toU8 / 8) = some reg := by
    cases pin <;> exact ⟨_, rfl⟩
  simp only [get_pin_input_state, hreg]
  rcases read_register_shape oracle address log reg with
    ⟨v, log', hv⟩ | ⟨e0, log', he⟩
  · rw [hv]
    split
    · simp_all
    · split <;> simp
  · rw [he]
    simp

lemma get_pin_polarity_inversion_ne_invalid {E : Type} (oracle : Oracle E)
    (address : Nat) (log : List Txn) (pin : Pin) :
    (get_pin_polarity_inversion oracle address log pin).1 ≠
      Except.error Error.InvalidRegisterOrPin := by
  obtain ⟨reg, hreg⟩ : ∃ reg, polarityRegisterFor (pin.toU8 / 8) = some reg := by
    cases pin <;> exact ⟨_, rfl⟩
  simp only [get_pin_polarity_inversion, hreg]
  rcases read_register_shape oracle address log reg with
    ⟨v, log', hv⟩ | ⟨e0, log', he⟩
  · rw [hv]
    split <;> simp_all
  · rw [he]
    simp

lemma get_pin_interrupt_mask_ne_invalid {E : Type} (oracle : Oracle E)
    (address : Nat) (log : List Txn) (pin : Pin) :
    (get_pin_interrupt_mask oracle address log pin).1 ≠
      Except.error Error.InvalidRegisterOrPin := by
  obtain ⟨reg, hreg⟩ : ∃ reg,
      interruptMaskRegisterFor (pin.toU8 / 8) = some reg := by
    cases pin <;> exact ⟨_, rfl⟩
  simp only [get_pin_interrupt_mask, hreg]
  rcases read_register_shape oracle address log reg with
    ⟨v, log', hv⟩ | ⟨e0, log', he⟩
  · rw [hv]
    split <;> simp_all
  · rw [he]
    simp

/-- C8: every pin decodes to a port index in {0, 1, 2}, so the fallthrough
match arm is unreachable: none of the nine single-pin operations applied to
a `Pin` value ever returns `Error.InvalidRegisterOrPin`, whatever the
transport does. -/
theorem invalid_register_or_pin_unreachable :
    (∀ pin : Pin, pin.toU8 / 8 < 3) ∧
    (∀ (E : Type) (oracle : Oracle E) (address : Nat) (log : List Txn)
      (pin : Pin) (direction : PinDirection),
      (set_pin_direction oracle address log pin direction).1 ≠
        Except.error Error.InvalidRegisterOrPin) ∧
    (∀ (E : Type) (oracle : Oracle E) (address : Nat) (log : List Txn)
      (pin : Pin),
      (get_pin_direction oracle address log pin).1 ≠
        Except.error Error.InvalidRegisterOrPin) ∧
    (∀ (E : Type) (oracle : Oracle E) (address : Nat) (log : List Txn)
      (pin : Pin) (state : PinState),
      (set_pin_output oracle address log pin state).1 ≠
        Except.error Error.InvalidRegisterOrPin) ∧
    (∀ (E : Type) (oracle : Oracle E) (address : Nat) (log : List Txn)
      (pin : Pin) (invert : Bool),
      (set_pin_polarity_inversion oracle address log pin invert).1 ≠
        Except.error Error.InvalidRegisterOrPin) ∧
    (∀ (E : Type) (oracle : Oracle E) (address : Nat) (log : List Txn)
      (pin : Pin) (mask : Bool),
      (set_pin_interrupt_mask oracle address log pin mask).1 ≠
        Except.error Error.InvalidRegisterOrPin) ∧
    (∀ (E : Type) (oracle : Oracle E) (address : Nat) (log : List Txn)
      (pin : Pin),
      (get_pin_output_state oracle address log pin).1 ≠
        Except.error Error.InvalidRegisterOrPin) ∧
    (∀ (E : Type) (oracle : Oracle E) (address : Nat) (log : List Txn)
      (pin : Pin),
      (get_pin_input_state oracle address log pin).1 ≠
        Except.error Error.InvalidRegisterOrPin) ∧
    (∀ (E : Type) (oracle : Oracle E) (address : Nat) (log : List Txn)
      (pin : Pin),
      (get_pin_polarity_inversion oracle address log pin).1 ≠
        Except.error Error.InvalidRegisterOrPin) ∧
    (∀ (E : Type) (oracle : Oracle E) (address : Nat) (log : List Txn)
      (pin : Pin),
      (get_pin_interrupt_mask oracle address log pin).1 ≠
        Except.error Error.InvalidRegisterOrPin) :=
  ⟨fun pin => by cases pin <;> decide,
   fun _ oracle address log pin direction =>
     set_pin_direction_ne_invalid oracle address log pin direction,
   fun _ oracle address log pin =>
     get_pin_direction_ne_invalid oracle address log pin,
   fun _ oracle address log pin state =>
     set_pin_output_ne_invalid oracle address log pin state,
   fun _ oracle address log pin invert =>
     set_pin_polarity_inversion_ne_invalid oracle address log pin invert,
   fun _ oracle address log pin mask =>
     set_pin_interrupt_mask_ne_invalid oracle address log pin mask,
   fun _ oracle address log pin =>
     get_pin_output_state_ne_invalid oracle address log pin,
   fun _ oracle address log pin =>
     get_pin_input_state_ne_invalid oracle address log pin,
   fun _ oracle address log pin =>
     get_pin_polarity_inversion_ne_invalid oracle address log pin,
   fun _ oracle address log pin =>
     get_pin_interrupt_mask_ne_invalid oracle address log pin⟩

/-- C1: `set_pin_direction(p, d)` performs a read-modify-write on p's
Configuration register: one read of that register, then one write whose
value byte has exactly bit `p mod 8` changed (set for Input, cleared for
Output) and all other bits equal to the byte that was read. -/
theorem set_pin_direction_rmw (pin : Pin) (direction : PinDirection) :
    ∀ v : Nat, v < 256 →
      spdLog pin direction v =
        [Txn.writeRead 0x22 [(configRegisterOf pin).addr] 1,
         Txn.write 0x22 [(configRegisterOf pin).addr,
           writtenValue (spdLog pin direction v)]] ∧
      (writtenValue (spdLog pin direction v)).testBit (pin.toU8 % 8) =
        (direction == PinDirection.Input) ∧
      (∀ j : Nat, j < 8 → j ≠ pin.toU8 % 8 →
        (writtenValue (spdLog pin direction v)).testBit j = v.testBit j) := by
  intro v hv
  have hb : pin.toU8 % 8 < 8 := Nat.mod_lt _ (by norm_num)
  rw [spdLog_eq]
  refine ⟨rfl, ?_, ?_⟩
  · cases direction
    · show (v ||| (1 <<< (pin.toU8 % 8))).testBit (pin.toU8 % 8) =
        (PinDirection.Input == PinDirection.Input)
      simp [testBit_shiftLeft_one_self]
    · show (v &&& ((1 <<< (pin.toU8 % 8)) ^^^ 0xFF)).testBit (pin.toU8 % 8) =
        (PinDirection.Output == PinDirection.Input)
      simp [testBit_shiftLeft_one_self, testBit_255_of_lt _ hb]
  · intro j hj hne
    cases direction
    · show (v ||| (1 <<< (pin.toU8 % 8))).testBit j = v.testBit j
      simp [testBit_shiftLeft_one_ne _ _ (Ne.symm hne)]
    · show (v &&& ((1 <<< (pin.toU8 % 8)) ^^^ 0xFF)).testBit j = v.testBit j
      simp [testBit_shiftLeft_one_ne _ _ (Ne.symm hne), testBit_255_of_lt _ hj]

/-- C1 witness: with the read returning 0xFF, `set_pin_direction(P00,
Output)` issues the read of Configuration Port 0 and then writes 0xFE. -/
theorem set_pin_direction_rmw_witness :
    (255 : Nat) < 256 ∧
    spdLog Pin.P00 PinDirection.Output 255 =
      [Txn.writeRead 0x22 [0x0C] 1, Txn.write 0x22 [0x0C, 0xFE]] :=
  ⟨by norm_num,
   (set_pin_direction_rmw Pin.P00 PinDirection.Output 255 (by norm_num)).1⟩

lemma read_registers_ai_spec {E : Type} (oracle : Oracle E) (address : Nat)
    (log : List Txn) (start_register : Register) (buffer : List Nat) :
    read_registers_ai oracle address log start_register buffer =
      (match oracle log (Txn.writeRead address
          [start_register.addr ||| 0x80] buffer.length) with
       | Resp.ok data => Except.ok (fillBuffer buffer data)
       | Resp.err e => Except.error (Error.I2c e),
       log ++ [Txn.writeRead address
          [start_register.addr ||| 0x80] buffer.length]) := by
  simp only [read_registers_ai, i2cWriteRead]
  cases h : oracle log (Txn.writeRead address
      [start_register.addr ||| 0x80] buffer.length) <;> simp [h]

/-- C6: `get_ports_input_state_ai` issues exactly one combined
write-then-read transaction whose command byte is the starting Input
register address with bit 7 set (`0x00 ||| 0x80 = 0x80` for Port0), reads
exactly `buffer.length` bytes, and when the transport returns as many bytes
as the buffer holds, the returned buffer is exactly those bytes in order. -/
theorem get_ports_input_state_ai_spec :
    (∀ (E : Type) (oracle : Oracle E) (address : Nat) (log : List Txn)
      (start_port : Port) (buffer : List Nat),
      get_ports_input_state_ai oracle address log start_port buffer =
        (match oracle log (Txn.writeRead address
            [(inputRegisterOfPort start_port).addr ||| 0x80]
            buffer.length) with
         | Resp.ok data => Except.ok (fillBuffer buffer data)
         | Resp.err e => Except.error (Error.I2c e),
         log ++ [Txn.writeRead address
            [(inputRegisterOfPort start_port).addr ||| 0x80]
            buffer.length])) ∧
    (∀ (buf data : List Nat), data.length = buf.length →
      fillBuffer buf data = data) ∧
    (inputRegisterOfPort Port.Port0).addr ||| 0x80 = 0x80 := by
  refine ⟨?_, ?_, rfl⟩
  · intro E oracle address log start_port buffer
    cases start_port <;>
      exact read_registers_ai_spec oracle address log _ buffer
  · intro buf data h
    unfold fillBuffer
    rw [← h, List.take_length, h, List.drop_length, List.append_nil]

/-- C6 witness: a 3-byte read from Port0 with the transport returning
`[9, 8, 7]` fills the buffer with exactly those bytes. -/
theorem get_ports_input_state_ai_spec_witness :
    ([9, 8, 7] : List Nat).length = ([0, 0, 0] : List Nat).length ∧
    fillBuffer [0, 0, 0] [9, 8, 7] = [9, 8, 7] :=
  ⟨rfl, get_ports_input_state_ai_spec.2.1 [0, 0, 0] [9, 8, 7] rfl⟩

set_option maxRecDepth 100000 in
/-- C3: against the device model (which answers reads with the byte last
written), `set_pin_direction(p, Output)` succeeds and a subsequent
`get_pin_direction(p)` returns `Output`, for every pin and every initial
register byte. -/
theorem set_then_get_direction_output (pin : Pin) :
    ∀ c : Nat, c < 256 →
      (set_pin_direction (E := Nat) (deviceOracle (fun _ => c)) 0x22 []
        pin PinDirection.Output).1 = Except.ok () ∧
      (get_pin_direction (E := Nat) (deviceOracle (fun _ => c)) 0x22
        (set_pin_direction (E := Nat) (deviceOracle (fun _ => c)) 0x22 []
          pin PinDirection.Output).2 pin).1 =
        Except.ok PinDirection.Output := by
  cases pin <;> decide

/-- C3 witness: pin P00 with all registers initially 0xFF. -/
theorem set_then_get_direction_output_witness :
    (255 : Nat) < 256 ∧
    ((set_pin_direction (E := Nat) (deviceOracle (fun _ => 255)) 0x22 []
        Pin.P00 PinDirection.Output).1 = Except.ok () ∧
      (get_pin_direction (E := Nat) (deviceOracle (fun _ => 255)) 0x22
        (set_pin_direction (E := Nat) (deviceOracle (fun _ => 255)) 0x22 []
          Pin.P00 PinDirection.Output).2 Pin.P00).1 =
        Except.ok PinDirection.Output) :=
  ⟨by norm_num, set_then_get_direction_output Pin.P00 255 (by norm_num)⟩

/-- C7: when the transport fails every transaction with error `e`, each
read-modify-write operation returns `Error.I2c e` (the transport error
unchanged) and issues exactly one transaction — the initial register read;
the write half never executes and nothing is retried. -/
theorem rmw_read_failure_aborts {E : Type} (oracle : Oracle E)
    (address : Nat) (log : List Txn) (e : E)
    (h : ∀ l t, oracle l t = Resp.err e) :
    (∀ (pin : Pin) (direction : PinDirection),
      set_pin_direction oracle address log pin direction =
        (Except.error (Error.I2c e),
         log ++ [Txn.writeRead address [(configRegisterOf pin).addr] 1])) ∧
    (∀ (pin : Pin) (state : PinState),
      set_pin_output oracle address log pin state =
        (Except.error (Error.I2c e),
         log ++ [Txn.writeRead address [(outputRegisterOf pin).addr] 1])) ∧
    (∀ (pin : Pin) (invert : Bool),
      set_pin_polarity_inversion oracle address log pin invert =
        (Except.error (Error.I2c e),
         log ++ [Txn.writeRead address [(polarityRegisterOf pin).addr] 1])) ∧
    (∀ (pin : Pin) (mask : Bool),
      set_pin_interrupt_mask oracle address log pin mask =
        (Except.error (Error.I2c e),
         log ++ [Txn.writeRead address
           [(interruptMaskRegisterOf pin).addr] 1])) := by
  have hr : ∀ reg : Register,
      read_register (E := E) oracle address log reg =
        (Except.error (Error.I2c e),
         log ++ [Txn.writeRead address [reg.addr] 1]) := by
    intro reg
    simp [read_register, i2cWriteRead, h]
  refine ⟨?_, ?_, ?_, ?_⟩ <;> intro pin x <;> cases pin <;>
    simp [set_pin_direction, set_pin_output, set_pin_polarity_inversion,
      set_pin_interrupt_mask, configRegisterFor, outputRegisterFor,
      polarityRegisterFor, interruptMaskRegisterFor, configRegisterOf,
      outputRegisterOf, polarityRegisterOf, interruptMaskRegisterOf,
      Pin.toU8, hr]

/-- C7 witness: a transport rejecting everything with error 7 makes
`set_pin_direction(P00, Input)` return `I2c 7` after the single read. -/
theorem rmw_read_failure_aborts_witness :
    ((∀ (l : List Txn) (t : Txn),
        (fun (_ : List Txn) (_ : Txn) => Resp.err (E := Nat) 7) l t =
          Resp.err 7) : Prop) ∧
    set_pin_direction (E := Nat) (fun _ _ => Resp.err 7) 0x22 []
        Pin.P00 PinDirection.Input =
      (Except.error (Error.I2c 7), [Txn.writeRead 0x22 [0x0C] 1]) :=
  ⟨fun _ _ => rfl,
   (rmw_read_failure_aborts (fun _ _ => Resp.err 7) 0x22 [] 7
      (fun _ _ => rfl)).1 Pin.P00 PinDirection.Input⟩

/-- C4: the register address map assigns Input ports 0-2 the addresses
0x00-0x02, Output 0x04-0x06, PolarityInversion 0x08-0x0A, Configuration
0x0C-0x0E and InterruptMask 0x10-0x12; within each kind the three port
addresses are consecutive, and every address has bit 7 clear. -/
theorem register_address_map :
    (Register.InputPort0.addr = 0x00 ∧ Register.InputPort1.addr = 0x01 ∧
      Register.InputPort2.addr = 0x02) ∧
    (Register.OutputPort0.addr = 0x04 ∧ Register.OutputPort1.addr = 0x05 ∧
      Register.OutputPort2.addr = 0x06) ∧
    (Register.PolarityInversionPort0.addr = 0x08 ∧
      Register.PolarityInversionPort1.addr = 0x09 ∧
      Register.PolarityInversionPort2.addr = 0x0A) ∧
    (Register.ConfigurationPort0.addr = 0x0C ∧
      Register.ConfigurationPort1.addr = 0x0D ∧
      Register.ConfigurationPort2.addr = 0x0E) ∧
    (Register.InterruptMaskPort0.addr = 0x10 ∧
      Register.InterruptMaskPort1.addr = 0x11 ∧
      Register.InterruptMaskPort2.addr = 0x12) ∧
    (Register.InputPort1.addr = Register.InputPort0.addr + 1 ∧
      Register.InputPort2.addr = Register.InputPort1.addr + 1 ∧
      Register.OutputPort1.addr = Register.OutputPort0.addr + 1 ∧
      Register.OutputPort2.addr = Register.OutputPort1.addr + 1 ∧
      Register.PolarityInversionPort1.addr =
        Register.PolarityInversionPort0.addr + 1 ∧
      Register.PolarityInversionPort2.addr =
        Register.PolarityInversionPort1.addr + 1 ∧
      Register.ConfigurationPort1.addr = Register.ConfigurationPort0.addr + 1 ∧
      Register.ConfigurationPort2.addr = Register.ConfigurationPort1.addr + 1 ∧
      Register.InterruptMaskPort1.addr = Register.InterruptMaskPort0.addr + 1 ∧
      Register.InterruptMaskPort2.addr = Register.InterruptMaskPort1.addr + 1) ∧
    (∀ r : Register, r.addr.testBit 7 = false) :=
  ⟨⟨rfl, rfl, rfl⟩, ⟨rfl, rfl, rfl⟩, ⟨rfl, rfl, rfl⟩, ⟨rfl, rfl, rfl⟩,
    ⟨rfl, rfl, rfl⟩,
    ⟨rfl, rfl, rfl, rfl, rfl, rfl, rfl, rfl, rfl, rfl⟩,
    fun r => by cases r <;> rfl⟩

/-- C5: `set_initial_output_state(p0, p1, p2)` performs exactly the same bus
transaction as `write_registers_ai(OutputPort0, [p0, p1, p2])` and returns
the same result, for every oracle, device address, prior log and masks. -/
theorem set_initial_output_state_eq_write_registers_ai :
    ∀ (E : Type) (oracle : Oracle E) (address : Nat) (log : List Txn)
      (port0_mask port1_mask port2_mask : Nat),
      set_initial_output_state oracle address log
          port0_mask port1_mask port2_mask =
        write_registers_ai oracle address log Register.OutputPort0
          [port0_mask, port1_mask, port2_mask] :=
  fun _ _ _ _ _ _ _ => rfl

/-- C9: `Tca6424::new` always returns `Ok` and issues no bus transaction:
its transaction log is empty for every address. -/
theorem new_never_fails :
    ∀ (E : Type) (address : Nat),
      Tca6424.new (E := E) address = (Except.ok address, []) :=
  fun _ _ => rfl

/-- C10: calling `write_registers_ai` with an empty slice still issues
exactly one bus write consisting of only the command byte, and returns the
transport's result for that write (wrapped as `Error.I2c` on failure). -/
theorem write_registers_ai_empty_slice :
    ∀ (E : Type) (oracle : Oracle E) (address : Nat) (log : List Txn)
      (start_register : Register),
      write_registers_ai oracle address log start_register [] =
        (match oracle log (Txn.write address [start_register.addr ||| 0x80]) with
         | Resp.ok _ => Except.ok ()
         | Resp.err e => Except.error (Error.I2c e),
         log ++ [Txn.write address [start_register.addr ||| 0x80]]) := by
  intro E oracle address log start_register
  simp only [write_registers_ai, i2cWrite, List.length_nil, List.take_nil,
    Nat.zero_min, Nat.min_zero]
  cases h : oracle log (Txn.write address [start_register.addr ||| 0x80]) <;>
    simp [h]

/-- C2: `write_registers_ai` issues exactly one bus write whose frame is the
command byte `start_register | 0x80` followed by the first at most three
values (extra values silently dropped), returning the transport's result;
and `set_ports_direction_ai(Port0, [0xAA, 0x55, 0xCC])` issues the single
frame `[0x0C | 0x80, 0xAA, 0x55, 0xCC]`. -/
theorem write_registers_ai_single_frame :
    (∀ (E : Type) (oracle : Oracle E) (address : Nat) (log : List Txn)
      (start_register : Register) (values : List Nat),
      write_registers_ai oracle address log start_register values =
        (match oracle log (Txn.write address
            ((start_register.addr ||| 0x80) :: values.take 3)) with
         | Resp.ok _ => Except.ok ()
         | Resp.err e => Except.error (Error.I2c e),
         log ++ [Txn.write address
            ((start_register.addr ||| 0x80) :: values.take 3)])) ∧
    set_ports_direction_ai (E := Nat) (fun _ _ => Resp.ok []) 0x22 []
        Port.Port0 [0xAA, 0x55, 0xCC] =
      (Except.ok (), [Txn.write 0x22 [0x0C ||| 0x80, 0xAA, 0x55, 0xCC]]) := by
  constructor
  · intro E oracle address log start_register values
    simp only [write_registers_ai, i2cWrite, take_min_length]
    cases h : oracle log (Txn.write address
        ((start_register.addr ||| 0x80) :: values.take 3)) <;> simp [h]
  · rfl
